import Mathlib

/-!
Shallow embedding of the Fun Casino backend (src/main.py, src/schemas.py).

Randomness (shuffled shoes, `random.choice`/`random.choices` draws) is made
explicit: each embedded handler takes, as an extra argument, the stream of
cards or symbols that the corresponding random source would produce, in the
order the Python code consumes them.  The document store is a `DB` value
threaded through each handler; `HTTPException` early exits become error
results, and draws that the Python code can always satisfy (fresh-shoe
top-ups) become `Option` failures when the supplied stream runs out.
-/

namespace Casino

/-- Rank-to-value table of the interactive blackjack variant, main.py line 116:
`CARD_VALUES = {"A": 11, "2": 2, ..., "10": 10, "J": 10, "Q": 10, "K": 10}`. -/
def CARD_VALUES : List (String × Nat) :=
  [("A", 11), ("2", 2), ("3", 3), ("4", 4), ("5", 5), ("6", 6), ("7", 7),
   ("8", 8), ("9", 9), ("10", 10), ("J", 10), ("Q", 10), ("K", 10)]

/-- Python dict lookup `CARD_VALUES[r]`; `none` models the `KeyError` on an
unknown rank. -/
def lookupVal : List (String × Nat) → String → Option Nat
  | [], _ => none
  | (r, v) :: rest, k => if r = k then some v else lookupVal rest k

/-- Python `c[:-1]`: the card token minus its final character (the suit glyph),
main.py line 123. -/
def rankOf (c : String) : String := ⟨c.data.dropLast⟩

/-- The `while total > 21 and aces: total -= 10; aces -= 1` loop of
`hand_value`, main.py lines 127-129. -/
def demoteAces : Nat → Nat → Nat
  | total, 0 => total
  | total, aces + 1 => if 21 < total then demoteAces (total - 10) aces else total

/-- The accumulation loop of `hand_value`, main.py lines 120-126: running
`(total, aces)` over the card tokens; `none` on an unknown rank. -/
def handTotals (cards : List String) : Option (Nat × Nat) :=
  cards.foldl
    (fun acc c =>
      match acc, lookupVal CARD_VALUES (rankOf c) with
      | some (t, a), some v => some (t + v, if rankOf c = "A" then a + 1 else a)
      | _, _ => none)
    (some (0, 0))

/-- Embeds `hand_value`, main.py lines 119-130. -/
def hand_value (cards : List String) : Option Nat :=
  (handTotals cards).map fun p => demoteAces p.1 p.2


/-- One document of the `blackjackhand` collection (schemas.py lines 63-77);
`hid` stands for the Mongo-generated `_id`. -/
structure HandRec where
  hid : Nat
  username : String
  bet : Nat
  player_cards : List String
  dealer_cards : List String
  shoe : List String
  status : String
  can_double : Bool
deriving DecidableEq, Repr

/-- The `details` payload of a `GameResult` document: the keys each game
actually stores (main.py lines 193, 264, 370, 441).  `natural = some true`
models the presence of the `"natural": True` key on the blackjack-start
natural path; `none` models its absence. -/
inductive Details where
  | blackjack (player dealer : List String) (outcome : String) (natural : Option Bool)
  | slots (reels : List String) (outcome : String)
  | baccarat (player banker : List String) (result : String)
deriving DecidableEq, Repr

/-- One document of the `gameresult` collection (schemas.py lines 51-61). -/
structure GameResultRec where
  username : String
  game : String
  bet : Nat
  payout : Int
  balance_after : Int
  details : Details
deriving DecidableEq, Repr

/-- The document store: the three collections the handlers use, plus the
counter producing fresh `_id`s for `blackjackhand` inserts. -/
structure DB where
  players : List (String × Int)
  hands : List HandRec
  results : List GameResultRec
  nextId : Nat
deriving DecidableEq, Repr

/-- Models `find_one({"username": u})` on the `player` collection: balance of the
first matching document. -/
def lookupBalance : List (String × Int) → String → Option Int
  | [], _ => none
  | (n, b) :: rest, u => if n = u then some b else lookupBalance rest u

/-- Models `update_one({"_id": doc["_id"]}, {"$set": {"balance": nb}})` where `doc`
is the first document matching the username. -/
def setBalance : List (String × Int) → String → Int → List (String × Int)
  | [], _, _ => []
  | (n, b) :: rest, u, nb =>
    if n = u then (n, nb) :: rest else (n, b) :: setBalance rest u nb

/-- Embeds `adjust_balance`, main.py lines 99-106: `none` is the 404 on a missing
player; otherwise clamp `balance + delta` at zero, persist, return. -/
def adjust_balance (db : DB) (username : String) (delta : Int) :
    Option (DB × Int) :=
  match lookupBalance db.players username with
  | none => none
  | some bal =>
    let new_balance := max 0 (bal + delta)
    some ({ db with players := setBalance db.players username new_balance },
      new_balance)

/-- Models `find_one({"username": u, "status": "player_turn"})` on `blackjackhand`
(main.py lines 229-234, minus the 404 wrapper). -/
def findActiveHand : List HandRec → String → Option HandRec
  | [], _ => none
  | h :: rest, u =>
    if h.username = u ∧ h.status = "player_turn" then some h
    else findActiveHand rest u

/-- Models `update_one({"_id": hid}, ...)` on `blackjackhand`: rewrite the first
document carrying that id. -/
def updateHand : List HandRec → Nat → (HandRec → HandRec) → List HandRec
  | [], _, _ => []
  | h :: rest, hid, f =>
    if h.hid = hid then f h :: rest else h :: updateHand rest hid f

/-- The dealer loop of `resolve_and_record`, main.py lines 241-243:
`while d_val < 17: dealer_cards.append(draw([])); d_val = hand_value(...)`.
Each `draw([])` builds a fresh shuffled shoe and pops one card, so the draws
form an arbitrary card stream, supplied here as `supply` (consumed in
order); `none` when the stream runs out or a card token is unknown. -/
def dealerHitLoop : List String → List String → Option (List String)
  | [], dealer =>
    match hand_value dealer with
    | none => none
    | some d => if d < 17 then none else some dealer
  | c :: rest, dealer =>
    match hand_value dealer with
    | none => none
    | some d =>
      if d < 17 then dealerHitLoop rest (dealer ++ [c]) else some dealer

/-- The outcome comparison of `resolve_and_record`, main.py lines 245-256:
bust / win / lose / push with the signed payout. -/
def bj_outcome_payout (bet : Nat) (p_val d_val : Nat) : String × Int :=
  if 21 < p_val then ("bust", -(bet : Int))
  else if 21 < d_val ∨ d_val < p_val then ("win", (bet : Int))
  else if p_val < d_val then ("lose", -(bet : Int))
  else ("push", 0)

/-- Embeds `resolve_and_record`, main.py lines 237-268.  Returns the updated store
together with the `{outcome, payout, balance}` dict and the final dealer
cards (the Python function mutates the caller's `dealer_cards` list in
place; the returned list models that aliasing). -/
def resolve_and_record (supply : List String) (db : DB) (username : String)
    (bet : Nat) (player_cards dealer_cards : List String) :
    Option (DB × String × Int × List String × Int) :=
  match hand_value player_cards with
  | none => none
  | some p_val =>
    match dealerHitLoop supply dealer_cards with
    | none => none
    | some dealer =>
      match hand_value dealer with
      | none => none
      | some d_val =>
        let op := bj_outcome_payout bet p_val d_val
        match adjust_balance db username op.2 with
        | none => none
        | some (db1, new_balance) =>
          let rec1 : GameResultRec :=
            { username := username, game := "blackjack", bet := bet,
              payout := op.2, balance_after := new_balance,
              details := .blackjack player_cards dealer op.1 none }
          let db2 := { db1 with results := db1.results ++ [rec1] }
          let db3 := { db2 with hands := db2.hands.map fun h =>
            if h.username = username then { h with status := "resolved" }
            else h }
          some (db3, op.1, op.2, dealer, new_balance)

/-- Response of `/api/blackjack/hit`, main.py lines 288 and 291. -/
inductive HitResponse where
  | resolved (player dealer : List String) (outcome : String) (payout : Int)
      (balance : Int)
  | playerTurn (player dealer : List String) (bet : Nat) (can_double : Bool)
deriving DecidableEq, Repr

/-- Embeds `blackjack_hit`, main.py lines 271-291.  `freshShoe` is the shuffled
shoe `make_shoe()` would produce when the stored shoe is empty;
`resolveSupply` is the card stream consumed by `resolve_and_record`'s dealer
loop.  `shoe.pop()` takes the last element of the Python list. -/
def blackjack_hit (freshShoe resolveSupply : List String) (db : DB)
    (username : String) : Option (DB × HitResponse) :=
  match findActiveHand db.hands username with
  | none => none
  | some hand =>
    let shoe0 := if hand.shoe = [] then freshShoe else hand.shoe
    match shoe0.getLast? with
    | none => none
    | some card =>
      let shoe := shoe0.dropLast
      let player_cards := hand.player_cards ++ [card]
      let dealer_cards := hand.dealer_cards
      match hand_value player_cards with
      | none => none
      | some p_val =>
        if 21 < p_val then
          let db1 := { db with
            hands := updateHand db.hands hand.hid fun h =>
              { h with
                player_cards := player_cards,
                shoe := shoe,
                status := "resolved" } }
          match resolve_and_record resolveSupply db1 username hand.bet
              player_cards dealer_cards with
          | none => none
          | some (db2, outcome, payout, dealer, balance) =>
            some (db2, .resolved player_cards dealer outcome payout balance)
        else
          let db1 := { db with
            hands := updateHand db.hands hand.hid fun h =>
              { h with
                player_cards := player_cards,
                shoe := shoe,
                can_double := false } }
          some (db1, .playerTurn player_cards dealer_cards hand.bet false)

/-- Response of `/api/blackjack/start`, main.py lines 195-202 and 215-222. -/
inductive StartResponse where
  | resolved (player dealer : List String) (outcome : String) (payout : Int)
      (balance : Int)
  | playerTurn (player dealer : List String) (bet : Nat) (can_double : Bool)
      (hand_id : Nat)
deriving DecidableEq, Repr

/-- Result of `/api/blackjack/start`: an `HTTPException` detail string or a
response together with the updated store. -/
inductive StartResult where
  | err (detail : String)
  | ok (db : DB) (resp : StartResponse)
deriving DecidableEq, Repr

/-- Python `shoe.pop()`: the last element of the list, plus the remainder. -/
def popCard (shoe : List String) : Option (String × List String) :=
  shoe.getLast?.map fun c => (c, shoe.dropLast)

/-- The natural-resolution branch of `blackjack_start`, main.py lines
175-185: blackjack / lose / push with the signed payout.
`int(req.bet * 1.5)` equals `3 * bet / 2` rounded toward zero for every
validated bet (1-1000), embedded as Nat division. -/
def bj_natural_outcome_payout (bet : Nat) (p_val d_val : Nat) :
    String × Int :=
  if p_val = 21 ∧ d_val ≠ 21 then ("blackjack", ((3 * bet) / 2 : Nat))
  else if d_val = 21 ∧ p_val ≠ 21 then ("lose", -(bet : Int))
  else ("push", 0)

/-- Embeds `blackjack_start`, main.py lines 154-222.  `shoe` is the shuffled,
one-card-burned list `make_shoe()` would produce; `none` only when it holds
fewer than four cards or a card token is unknown (unreachable for a real
311-card shoe).  `int(req.bet * 1.5)` equals `3 * bet / 2` rounded toward
zero for every validated bet (1-1000), embedded as Nat division. -/
def blackjack_start (shoe : List String) (db : DB) (username : String)
    (bet : Nat) : Option StartResult :=
  if (findActiveHand db.hands username).isSome then
    some (.err "Finish your current hand first")
  else
    match lookupBalance db.players username with
    | none => some (.err "Player not found")
    | some bal =>
      if bal < (bet : Int) then some (.err "Insufficient balance")
      else
        match popCard shoe with
        | none => none
        | some (c1, s1) =>
          match popCard s1 with
          | none => none
          | some (c2, s2) =>
            match popCard s2 with
            | none => none
            | some (c3, s3) =>
              match popCard s3 with
              | none => none
              | some (c4, s4) =>
                let player_cards := [c1, c2]
                let dealer_cards := [c3, c4]
                match hand_value player_cards, hand_value dealer_cards with
                | some p_val, some d_val =>
                  if p_val = 21 ∨ d_val = 21 then
                    let op := bj_natural_outcome_payout bet p_val d_val
                    match adjust_balance db username op.2 with
                    | none => none
                    | some (db1, new_balance) =>
                      let rec1 : GameResultRec :=
                        { username := username, game := "blackjack",
                          bet := bet, payout := op.2,
                          balance_after := new_balance,
                          details := .blackjack player_cards dealer_cards
                            op.1 (some true) }
                      let db2 := { db1 with results := db1.results ++ [rec1] }
                      some (.ok db2 (.resolved player_cards dealer_cards
                        op.1 op.2 new_balance))
                  else
                    let hand : HandRec :=
                      { hid := db.nextId, username := username, bet := bet,
                        player_cards := player_cards,
                        dealer_cards := dealer_cards, shoe := s4,
                        status := "player_turn", can_double := true }
                    let db1 := { db with
                      hands := db.hands ++ [hand],
                      nextId := db.nextId + 1 }
                    some (.ok db1 (.playerTurn player_cards dealer_cards bet
                      true db.nextId))
                | _, _ => none

/-- Embeds `spin_slots`, main.py lines 348-372.  `r1 r2 r3` are the three symbols
`random.choices` would draw.  `len(set(reels)) == 1` on three reels is
`r1 = r2 ∧ r2 = r3`. -/
def spin_slots (r1 r2 r3 : String) (db : DB) (username : String)
    (bet : Nat) : Option (DB × List String × String × Int × Int) :=
  let reels := [r1, r2, r3]
  let op : String × Int :=
    if r1 = r2 ∧ r2 = r3 then ("jackpot", (bet : Int) * 10)
    else if r1 = r2 ∨ r2 = r3 ∨ r1 = r3 then ("win", (bet : Int) * 2)
    else ("lose", -(bet : Int))
  match adjust_balance db username op.2 with
  | none => none
  | some (db1, new_balance) =>
    let rec1 : GameResultRec :=
      { username := username, game := "slots", bet := bet, payout := op.2,
        balance_after := new_balance, details := .slots reels op.1 }
    let db2 := { db1 with results := db1.results ++ [rec1] }
    some (db2, reels, op.1, op.2, new_balance)

/-- Baccarat rank values, main.py lines 376-378. -/
def card_values : List (String × Nat) :=
  [("A", 1), ("2", 2), ("3", 3), ("4", 4), ("5", 5), ("6", 6), ("7", 7),
   ("8", 8), ("9", 9), ("10", 0), ("J", 0), ("Q", 0), ("K", 0)]

/-- Embeds `hand_total`, main.py lines 392-393: sum of rank values modulo 10. -/
def hand_total (cards : List String) : Option Nat :=
  (cards.foldl
    (fun acc r =>
      match acc, lookupVal card_values r with
      | some t, some v => some (t + v)
      | _, _ => none)
    (some 0)).map (· % 10)

/-- The final outcome comparison, main.py lines 415-419. -/
def baccarat_outcome (player_total banker_total : Nat) : String :=
  if banker_total < player_total then "player"
  else if player_total < banker_total then "banker"
  else "tie"

/-- The payout ladder, main.py lines 421-432.  `int(req.bet * 0.95)` equals
`19 * bet / 20` rounded toward zero for every validated bet (1-1000),
embedded as Nat division. -/
def baccarat_payout (side outcome : String) (bet : Nat) : Int :=
  if side = outcome then
    if outcome = "tie" then (bet : Int) * 8
    else if outcome = "player" then (bet : Int)
    else if outcome = "banker" then ((19 * bet) / 20 : Nat)
    else -(bet : Int)
  else -(bet : Int)

/-- Embeds `play_baccarat`, main.py lines 396-443.  `p1 p2 b1 b2` are the four
initial `draw_rank()` results, `p3`/`b3` the third-card draws consumed only
when the corresponding side draws. -/
def play_baccarat (p1 p2 b1 b2 p3 b3 : String) (db : DB) (username : String)
    (bet : Nat) (side : String) :
    Option (DB × List String × List String × String × Int × Int) :=
  let player0 := [p1, p2]
  let banker0 := [b1, b2]
  match hand_total player0, hand_total banker0 with
  | some pt0, some bt0 =>
    let natural := pt0 = 8 ∨ pt0 = 9 ∨ bt0 = 8 ∨ bt0 = 9
    let player := if natural then player0
      else if pt0 ≤ 5 then player0 ++ [p3] else player0
    let banker := if natural then banker0
      else if bt0 ≤ 5 then banker0 ++ [b3] else banker0
    match hand_total player, hand_total banker with
    | some player_total, some banker_total =>
      let outcome := baccarat_outcome player_total banker_total
      let payout := baccarat_payout side outcome bet
      match adjust_balance db username payout with
      | none => none
      | some (db1, new_balance) =>
        let rec1 : GameResultRec :=
          { username := username, game := "baccarat", bet := bet,
            payout := payout, balance_after := new_balance,
            details := .baccarat player banker outcome }
        let db2 := { db1 with results := db1.results ++ [rec1] }
        some (db2, player, banker, outcome, payout, new_balance)
    | _, _ => none
  | _, _ => none

/-- The routing table: every `@app.<method>(path)` decorator in main.py
(lines 35, 39, 73, 82, 154, 271, 294, 312, 348, 396, 447), as
(HTTP method, path) pairs. -/
def routes : List (String × String) :=
  [("GET", "/"), ("GET", "/test"),
   ("POST", "/api/player/register"), ("GET", "/api/player/{username}"),
   ("POST", "/api/blackjack/start"), ("POST", "/api/blackjack/hit"),
   ("POST", "/api/blackjack/stand"), ("POST", "/api/blackjack/double"),
   ("POST", "/api/slots/spin"), ("POST", "/api/baccarat/play"),
   ("GET", "/api/history/{username}")]

/-- Validation of `BetRequest` (slots), main.py lines 29-31: username length
3-24 and bet 1-1000. -/
def BetRequest_valid (username : String) (bet : Int) : Prop :=
  3 ≤ username.length ∧ username.length ≤ 24 ∧ 1 ≤ bet ∧ bet ≤ 1000

/-- Validation of `BlackjackStart`, main.py lines 149-151: `username` is a
plain `str` with no length constraint; only the bet is bounded. -/
def BlackjackStart_valid (username : String) (bet : Int) : Prop :=
  1 ≤ bet ∧ bet ≤ 1000

/-- Validation of `BlackjackAction`, main.py lines 225-226: a bare string
username, no constraint at all. -/
def BlackjackAction_valid (username : String) : Prop := True

/-- Validation of `BaccaratBet`, main.py lines 386-389: unconstrained
username, bounded bet, literal side. -/
def BaccaratBet_valid (username : String) (bet : Int) (side : String) :
    Prop :=
  (1 ≤ bet ∧ bet ≤ 1000) ∧
  (side = "player" ∨ side = "banker" ∨ side = "tie")

instance (u : String) (b : Int) : Decidable (BetRequest_valid u b) := by
  unfold BetRequest_valid; infer_instance

instance (u : String) (b : Int) : Decidable (BlackjackStart_valid u b) := by
  unfold BlackjackStart_valid; infer_instance

instance (u : String) (b : Int) (s : String) :
    Decidable (BaccaratBet_valid u b s) := by
  unfold BaccaratBet_valid; infer_instance

/-! Helper lemmas. -/

lemma lookupBalance_setBalance (ps : List (String × Int)) (u : String)
    (bal nb : Int) (h : lookupBalance ps u = some bal) :
    lookupBalance (setBalance ps u nb) u = some nb := by
  induction ps with
  | nil => simp [lookupBalance] at h
  | cons p rest ih =>
    obtain ⟨n, b⟩ := p
    by_cases hn : n = u
    · simp [lookupBalance, setBalance, hn]
    · simp only [lookupBalance, setBalance, if_neg hn] at h ⊢
      exact ih h

lemma adjust_balance_eq (db : DB) (u : String) (delta bal : Int)
    (h : lookupBalance db.players u = some bal) :
    adjust_balance db u delta =
      some ({ db with
        players := setBalance db.players u (max 0 (bal + delta)) },
        max 0 (bal + delta)) := by
  unfold adjust_balance
  rw [h]

lemma adjust_balance_some {db : DB} {u : String} {delta : Int} {db1 : DB}
    {nb : Int} (h : adjust_balance db u delta = some (db1, nb)) :
    ∃ bal, lookupBalance db.players u = some bal ∧ nb = max 0 (bal + delta) ∧
      db1 = { db with players := setBalance db.players u nb } := by
  unfold adjust_balance at h
  cases hl : lookupBalance db.players u with
  | none => rw [hl] at h; exact absurd h (by simp)
  | some bal =>
    rw [hl] at h
    simp only [Option.some.injEq, Prod.mk.injEq] at h
    exact ⟨bal, rfl, h.2.symm, by rw [← h.1, ← h.2]⟩

lemma demoteAces_spec (a t : Nat) :
    ∃ k, k ≤ a ∧ demoteAces t a = t - 10 * k ∧
      (∀ j, j < k → 21 < t - 10 * j) ∧ (k < a → t - 10 * k ≤ 21) := by
  induction a generalizing t with
  | zero =>
    refine ⟨0, le_refl 0, by simp [demoteAces], ?_, ?_⟩
    · intro j hj; omega
    · intro h; omega
  | succ a ih =>
    by_cases h21 : 21 < t
    · obtain ⟨k, hk, he, hj, hl⟩ := ih (t - 10)
      refine ⟨k + 1, by omega, ?_, ?_, ?_⟩
      · show demoteAces t (a + 1) = t - 10 * (k + 1)
        rw [demoteAces, if_pos h21, he]
        omega
      · intro j hj2
        cases j with
        | zero => simpa using h21
        | succ j2 =>
          have := hj j2 (by omega)
          omega
      · intro hlt
        have := hl (by omega)
        omega
    · refine ⟨0, by omega, ?_, ?_, ?_⟩
      · rw [demoteAces, if_neg h21]
        omega
      · intro j hj; omega
      · intro _; omega

/-! Claim theorems. -/

/-- C1: `adjust_balance` computes `max 0 (balance + delta)`, persists it and
returns it for every stored player and every delta, so the stored balance is
never negative after an adjustment; a player with balance 50 adjusted by
-1000 ends with balance 0. -/
theorem adjust_balance_clamped_floor :
    (∀ db u delta bal, lookupBalance db.players u = some bal →
      adjust_balance db u delta =
        some ({ db with
          players := setBalance db.players u (max 0 (bal + delta)) },
          max 0 (bal + delta)) ∧
      lookupBalance (setBalance db.players u (max 0 (bal + delta))) u =
        some (max 0 (bal + delta)) ∧
      0 ≤ max 0 (bal + delta)) ∧
    (∀ db u delta db2 nb, adjust_balance db u delta = some (db2, nb) →
      0 ≤ nb ∧ lookupBalance db2.players u = some nb) ∧
    (adjust_balance ⟨[("pat", 50)], [], [], 0⟩ "pat" (-1000)).map Prod.snd =
      some 0 := by
  refine ⟨?_, ?_, by decide⟩
  · intro db u delta bal h
    exact ⟨adjust_balance_eq db u delta bal h,
      lookupBalance_setBalance db.players u bal _ h, le_max_left 0 _⟩
  · intro db u delta db2 nb h
    obtain ⟨bal, hl, hnb, hdb⟩ := adjust_balance_some h
    subst hdb
    refine ⟨by rw [hnb]; exact le_max_left 0 _, ?_⟩
    exact lookupBalance_setBalance db.players u bal nb hl

/-- Witness for C1 at player "pat", balance 50, delta -1000. -/
theorem adjust_balance_clamped_floor_witness :
    0 ≤ (0 : Int) ∧
      lookupBalance (DB.mk [("pat", 0)] [] [] 0).players "pat" = some 0 :=
  adjust_balance_clamped_floor.2.1 ⟨[("pat", 50)], [], [], 0⟩ "pat" (-1000)
    ⟨[("pat", 0)], [], [], 0⟩ 0 (by decide)

/-- C2: `hand_value` sums face cards as 10, number cards at face value and
aces as 11 (per `CARD_VALUES`), then demotes aces from 11 to 1 (10 off per
ace) while the total exceeds 21 and an undemoted ace remains; in particular
the hand A-A-9 is worth 21. -/
theorem hand_value_ace_demotion :
    (∀ cards t a, handTotals cards = some (t, a) →
      hand_value cards = some (demoteAces t a)) ∧
    (∀ t a, ∃ k, k ≤ a ∧ demoteAces t a = t - 10 * k ∧
      (∀ j, j < k → 21 < t - 10 * j) ∧ (k < a → t - 10 * k ≤ 21)) ∧
    lookupVal CARD_VALUES "A" = some 11 ∧
    lookupVal CARD_VALUES "7" = some 7 ∧
    lookupVal CARD_VALUES "J" = some 10 ∧
    lookupVal CARD_VALUES "Q" = some 10 ∧
    lookupVal CARD_VALUES "K" = some 10 ∧
    hand_value ["A♠", "A♥", "9♣"] = some 21 := by
  refine ⟨?_, fun t a => demoteAces_spec a t, by decide, by decide, by decide,
    by decide, by decide, by decide⟩
  intro cards t a h
  simp [hand_value, h]

/-- Witness for C2 at the hand A-A-9, whose raw totals are (31, 2). -/
theorem hand_value_ace_demotion_witness :
    hand_value ["A♠", "A♥", "9♣"] = some (demoteAces 31 2) :=
  hand_value_ace_demotion.1 ["A♠", "A♥", "9♣"] 31 2 (by decide)

/-- C9 counterexample: the routing table carries no
`POST /api/blackjack/play` entry — the legacy one-shot blackjack endpoint
does not exist in the code. -/
theorem no_one_shot_blackjack_route_cex :
    routes.count ("POST", "/api/blackjack/play") = 0 := by decide

/-- C9 amended: the API exposes blackjack only through the interactive
start/hit/stand/double endpoints; no one-shot `/api/blackjack/play` route
exists. -/
theorem blackjack_routes_interactive_only :
    ("POST", "/api/blackjack/start") ∈ routes ∧
    ("POST", "/api/blackjack/hit") ∈ routes ∧
    ("POST", "/api/blackjack/stand") ∈ routes ∧
    ("POST", "/api/blackjack/double") ∈ routes ∧
    routes.count ("POST", "/api/blackjack/play") = 0 := by decide

/-- C8 counterexample: the length-2 username "ab" passes the blackjack-start,
blackjack-action and baccarat request validations — those models carry no
3-24 length constraint. -/
theorem username_length_not_validated_cex :
    BlackjackStart_valid "ab" 10 ∧ BaccaratBet_valid "ab" 10 "player" ∧
    BlackjackAction_valid "ab" ∧ "ab".length = 2 :=
  ⟨by decide, by decide, trivial, by decide⟩

/-- C8 amended: only the slots `BetRequest` validates the username length
(3-24); the blackjack start/action and baccarat request models ignore the
username entirely. -/
theorem username_validation_slots_only :
    (∀ u bet, BetRequest_valid u bet → 3 ≤ u.length ∧ u.length ≤ 24) ∧
    (∀ u u2 bet, BlackjackStart_valid u bet ↔ BlackjackStart_valid u2 bet) ∧
    (∀ u, BlackjackAction_valid u) ∧
    (∀ u u2 bet side,
      BaccaratBet_valid u bet side ↔ BaccaratBet_valid u2 bet side) :=
  ⟨fun _ _ h => ⟨h.1, h.2.1⟩, fun _ _ _ => Iff.rfl, fun _ => trivial,
    fun _ _ _ _ => Iff.rfl⟩

/-- Witness for C8's amended theorem at username "alice", bet 10. -/
theorem username_validation_slots_only_witness :
    3 ≤ "alice".length ∧ "alice".length ≤ 24 :=
  username_validation_slots_only.1 "alice" 10 (by decide)

/-- C5: every baccarat round pays the side bet per the code's ladder: a
matched "tie" pays bet × 8, a matched "player" pays +bet, a matched "banker"
pays int(bet × 0.95) (95 for bet 100), and every side/outcome mismatch —
including a "tie" side bet on a non-tie outcome — pays -bet. -/
theorem baccarat_payout_ladder :
    (∀ p1 p2 b1 b2 p3 b3 db u bet side db2 pl bk outcome payout bal,
      play_baccarat p1 p2 b1 b2 p3 b3 db u bet side =
        some (db2, pl, bk, outcome, payout, bal) →
      payout = baccarat_payout side outcome bet) ∧
    (∀ bet, baccarat_payout "tie" "tie" bet = (bet : Int) * 8) ∧
    (∀ bet, baccarat_payout "player" "player" bet = (bet : Int)) ∧
    (∀ bet, baccarat_payout "banker" "banker" bet = ((19 * bet) / 20 : Nat)) ∧
    baccarat_payout "banker" "banker" 100 = 95 ∧
    (∀ side outcome bet, side ≠ outcome →
      baccarat_payout side outcome bet = -(bet : Int)) := by
  refine ⟨?_, ?_, ?_, ?_, by decide, ?_⟩
  · intro p1 p2 b1 b2 p3 b3 db u bet side db2 pl bk outcome payout bal h
    simp only [play_baccarat] at h
    split at h
    · split at h
      · split at h
        · exact absurd h (by simp)
        · simp only [Option.some.injEq, Prod.mk.injEq] at h
          obtain ⟨-, -, -, ho, hp, -⟩ := h
          rw [← ho, ← hp]
      · exact absurd h (by simp)
    · exact absurd h (by simp)
  · intro bet; simp [baccarat_payout]
  · intro bet; simp [baccarat_payout]
  · intro bet; simp [baccarat_payout]
  · intro side outcome bet hne
    simp [baccarat_payout, hne]

/-- Witness for C5 at a concrete round: ranks 2,3 vs 4,5 (banker natural 9),
side "banker", bet 100 — the payout is the commission value 95. -/
theorem baccarat_payout_ladder_witness :
    (95 : Int) = baccarat_payout "banker" "banker" 100 :=
  baccarat_payout_ladder.1 "2" "3" "4" "5" "6" "7"
    ⟨[("dan", 100)], [], [], 0⟩ "dan" 100 "banker"
    ⟨[("dan", 195)], [],
      [⟨"dan", "baccarat", 100, 95, 195,
        .baccarat ["2", "3"] ["4", "5"] "banker"⟩], 0⟩
    ["2", "3"] ["4", "5"] "banker" 95 195 (by decide)

/-- C6: a slots spin resolves exactly by: all three reels identical →
"jackpot", bet × 10; a pair but not all three → "win", bet × 2; all three
distinct → "lose", -bet. -/
theorem slots_resolution :
    ∀ r1 r2 r3 db u bet db2 reels outcome payout bal,
      spin_slots r1 r2 r3 db u bet = some (db2, reels, outcome, payout, bal) →
      reels = [r1, r2, r3] ∧
      ((r1 = r2 ∧ r2 = r3) →
        outcome = "jackpot" ∧ payout = (bet : Int) * 10) ∧
      ((¬(r1 = r2 ∧ r2 = r3) ∧ (r1 = r2 ∨ r2 = r3 ∨ r1 = r3)) →
        outcome = "win" ∧ payout = (bet : Int) * 2) ∧
      (¬(r1 = r2 ∨ r2 = r3 ∨ r1 = r3) →
        outcome = "lose" ∧ payout = -(bet : Int)) := by
  intro r1 r2 r3 db u bet db2 reels outcome payout bal h
  simp only [spin_slots] at h
  split_ifs at h with hc1 hc2
  · split at h
    · exact absurd h (by simp)
    · simp only [Option.some.injEq, Prod.mk.injEq] at h
      obtain ⟨-, hr, ho, hp, -⟩ := h
      exact ⟨hr.symm, fun _ => ⟨ho.symm, hp.symm⟩,
        fun hx => absurd hc1 hx.1, fun hx => absurd (Or.inl hc1.1) hx⟩
  · split at h
    · exact absurd h (by simp)
    · simp only [Option.some.injEq, Prod.mk.injEq] at h
      obtain ⟨-, hr, ho, hp, -⟩ := h
      exact ⟨hr.symm, fun hx => absurd hx hc1, fun _ => ⟨ho.symm, hp.symm⟩,
        fun hx => absurd hc2 hx⟩
  · split at h
    · exact absurd h (by simp)
    · simp only [Option.some.injEq, Prod.mk.injEq] at h
      obtain ⟨-, hr, ho, hp, -⟩ := h
      exact ⟨hr.symm, fun hx => absurd hx hc1, fun hx => absurd hx.2 hc2,
        fun _ => ⟨ho.symm, hp.symm⟩⟩

/-- Witness for C6 at a concrete jackpot spin: three cherries, bet 5. -/
theorem slots_resolution_witness :
    "jackpot" = "jackpot" ∧ (50 : Int) = (5 : Int) * 10 :=
  (slots_resolution "🍒" "🍒" "🍒" ⟨[("eve", 20)], [], [], 0⟩ "eve" 5
    ⟨[("eve", 70)], [],
      [⟨"eve", "slots", 5, 50, 70, .slots ["🍒", "🍒", "🍒"] "jackpot"⟩], 0⟩
    ["🍒", "🍒", "🍒"] "jackpot" 50 70 (by decide)).2.1 ⟨rfl, rfl⟩

/-- C7 counterexample: a slots spin with bet 1000 against balance 5 is not
rejected — it succeeds, records a GameResult (one result in the store),
applies payout -1000 and clamps the balance to 0. -/
theorem slots_bet_beyond_balance_cex :
    (spin_slots "🍒" "🍋" "⭐" ⟨[("eve", 5)], [], [], 0⟩ "eve" 1000).map
      (fun r => (r.1.results.length, r.2.2.2.1, r.2.2.2.2)) =
      some (1, -1000, 0) := by decide

/-- C7 amended: only blackjack start rejects a bet beyond the balance with
the "Insufficient balance" client error and no side effect; slots performs
no balance check and always records a GameResult for an existing player, and
baccarat likewise proceeds (shown at bet 1000 against balance 5). -/
theorem insufficient_balance_blackjack_start_only :
    (∀ (shoe : List String) (db : DB) (u : String) (bet : Nat) (bal : Int),
      findActiveHand db.hands u = none →
      lookupBalance db.players u = some bal → bal < (bet : Int) →
      blackjack_start shoe db u bet = some (.err "Insufficient balance")) ∧
    (∀ r1 r2 r3 db u bet bal, lookupBalance db.players u = some bal →
      ∃ db2 rest, spin_slots r1 r2 r3 db u bet = some (db2, rest) ∧
        db2.results.length = db.results.length + 1) ∧
    ((play_baccarat "2" "3" "4" "5" "6" "7" ⟨[("fay", 5)], [], [], 0⟩
        "fay" 1000 "player").map (fun r => (r.1.results.length, r.2.2.2.2.2)) =
      some (1, 0)) := by
  refine ⟨?_, ?_, by decide⟩
  · intro shoe db u bet bal h1 h2 h3
    simp [blackjack_start, h1, h2, h3]
  · intro r1 r2 r3 db u bet bal h
    simp only [spin_slots]
    rw [adjust_balance_eq db u _ bal h]
    exact ⟨_, _, rfl, by simp⟩

/-- Witness for C7's amended theorem: balance 5, bet 10 at blackjack start,
and balance 5, bet 1000 at slots. -/
theorem insufficient_balance_blackjack_start_only_witness :
    blackjack_start [] ⟨[("pam", 5)], [], [], 0⟩ "pam" 10 =
      some (.err "Insufficient balance") :=
  insufficient_balance_blackjack_start_only.1 [] ⟨[("pam", 5)], [], [], 0⟩
    "pam" 10 5 (by decide) (by decide) (by decide)

/-- C10: whenever `resolve_and_record` returns, it has adjusted the player's
balance, appended exactly one GameResult, and set status "resolved" on every
blackjackhand record of that username (leaving all their other fields, and
all other users' hands, unchanged). -/
theorem resolve_and_record_effects :
    ∀ supply db u bet pc dc db3 outcome payout dealer bal,
      resolve_and_record supply db u bet pc dc =
        some (db3, outcome, payout, dealer, bal) →
      (∃ prev, lookupBalance db.players u = some prev ∧
        bal = max 0 (prev + payout) ∧
        db3.players = setBalance db.players u bal) ∧
      db3.results = db.results ++
        [{ username := u, game := "blackjack", bet := bet, payout := payout,
           balance_after := bal,
           details := .blackjack pc dealer outcome none }] ∧
      db3.hands = db.hands.map (fun h =>
        if h.username = u then { h with status := "resolved" } else h) ∧
      (∀ h0, h0 ∈ db3.hands → h0.username = u → h0.status = "resolved") := by
  intro supply db u bet pc dc db3 outcome payout dealer bal h
  simp only [resolve_and_record] at h
  cases hpv : hand_value pc with
  | none => simp [hpv] at h
  | some p_val =>
  simp only [hpv] at h
  cases hdl : dealerHitLoop supply dc with
  | none => simp [hdl] at h
  | some dealer2 =>
  simp only [hdl] at h
  cases hdv : hand_value dealer2 with
  | none => simp [hdv] at h
  | some d_val =>
  simp only [hdv] at h
  cases hadj : adjust_balance db u (bj_outcome_payout bet p_val d_val).2 with
  | none => simp [hadj] at h
  | some db1nb =>
  obtain ⟨db1, nb⟩ := db1nb
  simp only [hadj, Option.some.injEq, Prod.mk.injEq] at h
  obtain ⟨hdb3, ho, hp2, hd, hb⟩ := h
  subst hdb3
  subst ho
  subst hp2
  subst hd
  subst hb
  obtain ⟨prev, hl, hnb, hdb1⟩ := adjust_balance_some hadj
  subst hdb1
  refine ⟨⟨prev, hl, hnb, rfl⟩, rfl, rfl, ?_⟩
  intro h0 hmem hu
  simp only [List.mem_map] at hmem
  obtain ⟨h1, h1m, hh⟩ := hmem
  by_cases hc : h1.username = u
  · rw [← hh]
    simp [hc]
  · rw [← hh] at hu
    simp [hc] at hu

/-- Witness for C10: player "bob" (balance 100) busts with K-Q-5 against a
standing dealer K-9; the store gains exactly the one bust GameResult. -/
theorem resolve_and_record_effects_witness :
    (DB.mk [("bob", 90)]
      [⟨7, "bob", 10, ["2♠", "2♥"], ["K♥", "9♥"], [], "resolved", true⟩]
      [⟨"bob", "blackjack", 10, -10, 90,
        .blackjack ["K♠", "Q♠", "5♠"] ["K♥", "9♥"] "bust" none⟩] 8).results =
      (DB.mk [("bob", 100)]
        [⟨7, "bob", 10, ["2♠", "2♥"], ["K♥", "9♥"], [], "player_turn", true⟩]
        [] 8).results ++
        [{ username := "bob", game := "blackjack", bet := 10, payout := -10,
           balance_after := 90,
           details := .blackjack ["K♠", "Q♠", "5♠"] ["K♥", "9♥"] "bust"
             none }] :=
  (resolve_and_record_effects []
    ⟨[("bob", 100)],
      [⟨7, "bob", 10, ["2♠", "2♥"], ["K♥", "9♥"], [], "player_turn", true⟩],
      [], 8⟩ "bob" 10 ["K♠", "Q♠", "5♠"] ["K♥", "9♥"]
    ⟨[("bob", 90)],
      [⟨7, "bob", 10, ["2♠", "2♥"], ["K♥", "9♥"], [], "resolved", true⟩],
      [⟨"bob", "blackjack", 10, -10, 90,
        .blackjack ["K♠", "Q♠", "5♠"] ["K♥", "9♥"] "bust" none⟩], 8⟩
    "bust" (-10) ["K♥", "9♥"] 90 (by decide)).2.1

lemma dealerHitLoop_spec :
    ∀ supply dealer dealer2, dealerHitLoop supply dealer = some dealer2 →
      ∃ extra dv, dealer2 = dealer ++ extra ∧ hand_value dealer2 = some dv ∧
        17 ≤ dv := by
  intro supply
  induction supply with
  | nil =>
    intro dealer dealer2 h
    simp only [dealerHitLoop] at h
    cases hd : hand_value dealer with
    | none => simp [hd] at h
    | some d =>
      simp only [hd] at h
      by_cases hlt : d < 17
      · rw [if_pos hlt] at h
        simp at h
      · rw [if_neg hlt] at h
        simp only [Option.some.injEq] at h
        subst h
        exact ⟨[], d, by simp, hd, by omega⟩
  | cons c rest ih =>
    intro dealer dealer2 h
    simp only [dealerHitLoop] at h
    cases hd : hand_value dealer with
    | none => simp [hd] at h
    | some d =>
      simp only [hd] at h
      by_cases hlt : d < 17
      · rw [if_pos hlt] at h
        obtain ⟨extra, dv, he, hv, h17⟩ := ih (dealer ++ [c]) dealer2 h
        exact ⟨c :: extra, dv, by simpa [List.append_assoc] using he, hv, h17⟩
      · rw [if_neg hlt] at h
        simp only [Option.some.injEq] at h
        subst h
        exact ⟨[], d, by simp, hd, by omega⟩

lemma resolve_and_record_bust :
    ∀ supply db u bet pc dc db3 o pay dealer bal p,
      hand_value pc = some p → 21 < p →
      resolve_and_record supply db u bet pc dc =
        some (db3, o, pay, dealer, bal) →
      o = "bust" ∧ pay = -(bet : Int) ∧
        dealerHitLoop supply dc = some dealer := by
  intro supply db u bet pc dc db3 o pay dealer bal p hpv h21 h
  simp only [resolve_and_record, hpv] at h
  cases hdl : dealerHitLoop supply dc with
  | none => simp [hdl] at h
  | some dealer2 =>
  simp only [hdl] at h
  cases hdv : hand_value dealer2 with
  | none => simp [hdv] at h
  | some d_val =>
  simp only [hdv] at h
  have hop : bj_outcome_payout bet p d_val = ("bust", -(bet : Int)) := by
    simp [bj_outcome_payout, if_pos h21]
  rw [hop] at h
  cases hadj : adjust_balance db u ("bust", -(bet : Int)).2 with
  | none => simp [hadj] at h
  | some db1nb =>
  obtain ⟨db1, nb⟩ := db1nb
  simp only [hadj, Option.some.injEq, Prod.mk.injEq] at h
  obtain ⟨-, ho, hp2, hd, -⟩ := h
  subst hd
  exact ⟨ho.symm, hp2.symm, rfl⟩

/-- The active hand used by C3's run: "ann" holds K-Q against dealer 2-3
with one card (a 5) left in the shoe. -/
def exHand3 : HandRec :=
  { hid := 1
    username := "ann"
    bet := 10
    player_cards := ["K♠", "Q♠"]
    dealer_cards := ["2♠", "3♠"]
    shoe := ["5♠"]
    status := "player_turn"
    can_double := true }

/-- The store used by C3's run. -/
def exDB3 : DB :=
  { players := [("ann", 100)], hands := [exHand3], results := [], nextId := 2 }

/-- C3 counterexample: "ann" hits, draws the 5 and busts at 25; the
resolution reports outcome "bust" and payout -10, but the dealer cards in
the result are the stored 2-3 extended by two drawn cards to reach 17 — the
dealer IS completed on a bust, not left unchanged. -/
theorem blackjack_hit_bust_dealer_drawn_cex :
    (blackjack_hit [] ["K♥", "2♥"] exDB3 "ann").map Prod.snd =
      some (.resolved ["K♠", "Q♠", "5♠"] ["2♠", "3♠", "K♥", "2♥"] "bust"
        (-10) 90) ∧
    exHand3.dealer_cards = ["2♠", "3♠"] ∧
    hand_value ["2♠", "3♠"] = some 5 ∧
    hand_value ["2♠", "3♠", "K♥", "2♥"] = some 17 ∧
    (["2♠", "3♠", "K♥", "2♥"] : List String).length = 4 ∧
    exHand3.dealer_cards.length = 2 := by decide

/-- C3 amended: a hit that busts resolves with outcome "bust" and payout
-bet, but the shared resolution routine first completes the dealer to a
total of at least 17: the dealer cards in the result extend the stored
hand's dealer cards by the drawn cards. -/
theorem blackjack_hit_bust_resolution :
    ∀ freshShoe supply db u db2 p d o pay bal,
      blackjack_hit freshShoe supply db u =
        some (db2, .resolved p d o pay bal) →
      ∃ hand extra dv, findActiveHand db.hands u = some hand ∧
        o = "bust" ∧ pay = -(hand.bet : Int) ∧
        d = hand.dealer_cards ++ extra ∧ hand_value d = some dv ∧
        17 ≤ dv := by
  intro freshShoe supply db u db2 p d o pay bal h
  simp only [blackjack_hit] at h
  cases hfind : findActiveHand db.hands u with
  | none => simp [hfind] at h
  | some hand =>
  simp only [hfind] at h
  cases hcard :
      (if hand.shoe = [] then freshShoe else hand.shoe).getLast? with
  | none => simp [hcard] at h
  | some card =>
  simp only [hcard] at h
  cases hpv : hand_value (hand.player_cards ++ [card]) with
  | none => simp [hpv] at h
  | some p_val =>
  simp only [hpv] at h
  by_cases h21 : 21 < p_val
  · rw [if_pos h21] at h
    split at h
    · simp at h
    · rename_i db2r outr payr dealerr balr hres
      simp only [Option.some.injEq, Prod.mk.injEq,
        HitResponse.resolved.injEq] at h
      obtain ⟨-, -, hd, ho, hp2, -⟩ := h
      obtain ⟨hbust, hpay, hdl⟩ :=
        resolve_and_record_bust supply _ u hand.bet _ hand.dealer_cards
          db2r outr payr dealerr balr p_val hpv h21 hres
      obtain ⟨extra, dv, he, hv, h17⟩ :=
        dealerHitLoop_spec supply hand.dealer_cards dealerr hdl
      refine ⟨hand, extra, dv, rfl, ?_, ?_, ?_, ?_, h17⟩
      · rw [← ho]; exact hbust
      · rw [← hp2]; exact hpay
      · rw [← hd]; exact he
      · rw [← hd]; exact hv
  · rw [if_neg h21] at h
    simp at h

/-- Witness for C3's amended theorem at the concrete bust run of "ann". -/
theorem blackjack_hit_bust_resolution_witness :
    ∃ hand extra dv, findActiveHand exDB3.hands "ann" = some hand ∧
      "bust" = "bust" ∧ (-10 : Int) = -(hand.bet : Int) ∧
      (["2♠", "3♠", "K♥", "2♥"] : List String) =
        hand.dealer_cards ++ extra ∧
      hand_value ["2♠", "3♠", "K♥", "2♥"] = some dv ∧ 17 ≤ dv :=
  blackjack_hit_bust_resolution [] ["K♥", "2♥"] exDB3 "ann"
    ⟨[("ann", 90)],
      [⟨1, "ann", 10, ["K♠", "Q♠", "5♠"], ["2♠", "3♠"], [], "resolved",
        true⟩],
      [⟨"ann", "blackjack", 10, -10, 90,
        .blackjack ["K♠", "Q♠", "5♠"] ["2♠", "3♠", "K♥", "2♥"] "bust"
          none⟩], 2⟩
    ["K♠", "Q♠", "5♠"] ["2♠", "3♠", "K♥", "2♥"] "bust" (-10) 90 (by decide)

lemma popCard_concat (l : List String) (c : String) :
    popCard (l ++ [c]) = some (c, l) := by
  simp [popCard]

/-- C4: whenever the initial deal totals 21 on either side (with an existing
player, a covered bet and no active hand), the start call itself resolves:
it returns status resolved, pays int(bet × 1.5) for a lone player natural,
-bet for a lone dealer natural, 0 for a double natural, records one
GameResult flagged natural, adjusts the balance and creates no hand record
(the store's hands and nextId are untouched). -/
theorem blackjack_start_natural :
    ∀ (rest : List String) (c1 c2 c3 c4 : String) (db : DB) (u : String)
      (bet : Nat) (bal : Int) (pv dv : Nat),
      findActiveHand db.hands u = none →
      lookupBalance db.players u = some bal →
      ¬ bal < (bet : Int) →
      hand_value [c1, c2] = some pv →
      hand_value [c3, c4] = some dv →
      pv = 21 ∨ dv = 21 →
      ∃ o pay,
        blackjack_start (rest ++ [c4, c3, c2, c1]) db u bet =
          some (.ok
            { db with
              players := setBalance db.players u (max 0 (bal + pay)),
              results := db.results ++
                [{ username := u, game := "blackjack", bet := bet,
                   payout := pay, balance_after := max 0 (bal + pay),
                   details := .blackjack [c1, c2] [c3, c4] o (some true) }] }
            (.resolved [c1, c2] [c3, c4] o pay (max 0 (bal + pay)))) ∧
        (pv = 21 ∧ dv ≠ 21 → o = "blackjack" ∧ pay = ((3 * bet) / 2 : Nat)) ∧
        (dv = 21 ∧ pv ≠ 21 → o = "lose" ∧ pay = -(bet : Int)) ∧
        (pv = 21 ∧ dv = 21 → o = "push" ∧ pay = 0) := by
  intro rest c1 c2 c3 c4 db u bet bal pv dv h1 h2 h3 hpv hdv hnat
  have e1 : popCard (rest ++ [c4, c3, c2, c1]) =
      some (c1, rest ++ [c4, c3, c2]) := by
    have e : rest ++ [c4, c3, c2, c1] = (rest ++ [c4, c3, c2]) ++ [c1] := by
      simp
    rw [e, popCard_concat]
  have e2 : popCard (rest ++ [c4, c3, c2]) =
      some (c2, rest ++ [c4, c3]) := by
    have e : rest ++ [c4, c3, c2] = (rest ++ [c4, c3]) ++ [c2] := by simp
    rw [e, popCard_concat]
  have e3 : popCard (rest ++ [c4, c3]) = some (c3, rest ++ [c4]) := by
    have e : rest ++ [c4, c3] = (rest ++ [c4]) ++ [c3] := by simp
    rw [e, popCard_concat]
  have e4 : popCard (rest ++ [c4]) = some (c4, rest) := popCard_concat rest c4
  refine ⟨(bj_natural_outcome_payout bet pv dv).1,
    (bj_natural_outcome_payout bet pv dv).2, ?_, ?_, ?_, ?_⟩
  · simp only [blackjack_start, h1, h2, e1, e2, e3, e4, hpv, hdv,
      Option.isSome_none, Bool.false_eq_true, if_false, if_neg h3,
      if_pos hnat]
    rw [adjust_balance_eq db u _ bal h2]
  · intro hx
    simp only [bj_natural_outcome_payout, if_pos hx]
    exact ⟨trivial, trivial⟩
  · intro hx
    have hn1 : ¬(pv = 21 ∧ dv ≠ 21) := fun hy => hy.2 hx.1
    simp only [bj_natural_outcome_payout, if_neg hn1, if_pos hx]
    exact ⟨trivial, trivial⟩
  · intro hx
    have hn1 : ¬(pv = 21 ∧ dv ≠ 21) := fun hy => hy.2 hx.2
    have hn2 : ¬(dv = 21 ∧ pv ≠ 21) := fun hy => hy.2 hx.1
    simp only [bj_natural_outcome_payout, if_neg hn1, if_neg hn2]
    exact ⟨trivial, trivial⟩

/-- The store used by C4's witness run. -/
def exDB4 : DB :=
  { players := [("cara", 100)], hands := [], results := [], nextId := 0 }

/-- Witness for C4: "cara" is dealt A-K (a 21 natural) against dealer 7-9. -/
theorem blackjack_start_natural_witness :
    ∃ o pay,
      blackjack_start ([] ++ ["9♥", "7♦", "K♠", "A♠"]) exDB4 "cara" 10 =
        some (.ok
          { exDB4 with
            players := setBalance exDB4.players "cara" (max 0 (100 + pay)),
            results := exDB4.results ++
              [{ username := "cara", game := "blackjack", bet := 10,
                 payout := pay, balance_after := max 0 (100 + pay),
                 details := .blackjack ["A♠", "K♠"] ["7♦", "9♥"] o
                   (some true) }] }
          (.resolved ["A♠", "K♠"] ["7♦", "9♥"] o pay (max 0 (100 + pay)))) ∧
      ((21 : Nat) = 21 ∧ (16 : Nat) ≠ 21 →
        o = "blackjack" ∧ pay = ((3 * 10) / 2 : Nat)) ∧
      ((16 : Nat) = 21 ∧ (21 : Nat) ≠ 21 → o = "lose" ∧ pay = -(10 : Int)) ∧
      ((21 : Nat) = 21 ∧ (16 : Nat) = 21 → o = "push" ∧ pay = 0) :=
  blackjack_start_natural [] "A♠" "K♠" "7♦" "9♥" exDB4 "cara" 10 100 21 16
    rfl rfl (by decide) (by decide) (by decide) (Or.inl rfl)

end Casino
